import Mathlib

/-!
Shallow embedding of the process-supervision core of the zenoh-sandbox
repository (src/src-tauri/src): the log store (`logs.rs`), the severity
order on `LogEntryLevel` (`ts/log.rs`), the runtime registry with its port
pool (`lib.rs`: `ZenohRuntimes`, `declare_runtime`, `zenoh_runtime_stop`,
`zenoh_runtime_config`, `zenoh_runtime_config_json`), the handshake error
handling of `start_runtime`, and the per-worker receiver task spawned by
`start_runtime`.

Conventions of the embedding:
- Rust `HashMap` values become association lists (`List (Key × Value)`)
  with first-match lookup; `HashMap::insert` prepends (observationally the
  same through `List.lookup`), `HashMap::get_mut` mutation updates the
  first matching entry.
- The `HashSet<u16>` port tracker becomes a duplicate-free `List Nat`
  (insertion only ever adds a port that the scan just found absent).
- External opaque payloads (the validated configuration blob
  `ZenohConfigJson`, `zenoh::config::Config`) are type parameters: the
  supervisor code only clones, stores and forwards them.
- Asynchronous I/O outcomes (accept timeout, read results, serde decode
  results, oneshot completion) are data fed to the pure transition
  functions, one constructor per outcome the source distinguishes.
-/

-- ===========================================================================
-- Log storage (src/src-tauri/src/logs.rs)
-- ===========================================================================

/-- Number of log entries per page (`logs.rs` line 14). -/
def LOG_PAGE_SIZE : Nat := 100

/-- Maximum number of log entries to keep per runtime (`logs.rs` line 17). -/
def MAX_LOG_ENTRIES : Nat := 10000

/-- A single log entry (`logs.rs` lines 52-62).  The `chrono` timestamp is
kept as an opaque string; all four fields are payload the store never
inspects. -/
structure LogEntry where
  timestamp : String
  level : String
  target : String
  message : String
deriving DecidableEq, Repr

/-- The map of `ZenohId` to log entries held by `LogStorage` (`logs.rs`
line 73), as an association list keyed by an opaque runtime key (`Nat`
stands in for `ZenohId`).  Each value list is most-recent-first. -/
def LogMap : Type := List (Nat × List LogEntry)

instance : DecidableEq LogMap := by unfold LogMap; infer_instance

/-- `HashMap::get` on the log map. -/
def LogMap.find (m : LogMap) (zid : Nat) : Option (List LogEntry) :=
  List.lookup zid m

/-- The list the mutation path sees: `logs.entry(zid).or_insert_with(Vec::new)`
(`logs.rs` line 87) yields the stored list, or a fresh empty one. -/
def LogMap.getD (m : LogMap) (zid : Nat) : List LogEntry :=
  (m.find zid).getD []

/-- Update (or insert) the entry for `zid`. -/
def LogMap.store (m : LogMap) (zid : Nat) (l : List LogEntry) : LogMap :=
  (zid, l) :: (m.filter fun kv => kv.1 ≠ zid)

/-- `LogStorage::add_log` (`logs.rs` lines 85-96): insert the new entry at
the beginning of the runtime's list (most recent first), then truncate to
`max_entries` when the list exceeds it. -/
def LogStorage.add_log (max_entries : Nat) (m : LogMap) (zid : Nat)
    (entry : LogEntry) : LogMap :=
  let runtime_logs := m.getD zid
  let runtime_logs := entry :: runtime_logs
  let runtime_logs :=
    if runtime_logs.length > max_entries then runtime_logs.take max_entries
    else runtime_logs
  m.store zid runtime_logs

/-- Modulus of Rust `usize` arithmetic on the 64-bit targets this
application ships on (the numeral is `2 ^ 64`): products reduce mod it. -/
def USIZE_LIMIT : Nat := 18446744073709551616

/-- `LogStorage::get_page` (`logs.rs` lines 100-114): page 0 is the most
recent `LOG_PAGE_SIZE` entries; the slice `runtime_logs[start..end]` is
`drop start` then `take (end - start)`.

`page` is a caller-supplied `usize`, so the products `page * LOG_PAGE_SIZE`
and `(page + 1) * LOG_PAGE_SIZE` (`logs.rs` lines 103-104) are `usize`
multiplications: in release builds they wrap mod `2 ^ 64`, which this
definition models with `% USIZE_LIMIT` (a debug build would instead panic
on the overflowing multiply).  The guarded slice itself is always in
bounds even for wrapped values: `stop` is clamped to the length and a
wrapped `stop` below `start` makes `stop - start` zero. -/
def LogStorage.get_page (m : LogMap) (zid : Nat) (page : Nat) :
    List LogEntry :=
  match m.find zid with
  | some runtime_logs =>
      let start := (page * LOG_PAGE_SIZE) % USIZE_LIMIT
      let stop := min (((page + 1) * LOG_PAGE_SIZE) % USIZE_LIMIT)
        runtime_logs.length
      if start ≥ runtime_logs.length then []
      else (runtime_logs.drop start).take (stop - start)
  | none => []

/-- A sequence of `add_log` calls applied to the default (empty) store with
the default capacity `MAX_LOG_ENTRIES` (`LogStorage::default`). -/
def LogStorage.run (ops : List (Nat × LogEntry)) : LogMap :=
  ops.foldl (fun m op => LogStorage.add_log MAX_LOG_ENTRIES m op.1 op.2) []

-- ===========================================================================
-- Log severity levels (src/src-tauri/src/ts/log.rs)
-- ===========================================================================

/-- `LogEntryLevel` (`ts/log.rs` lines 10-17), with `repr(u8)` discriminants
TRACE = 0, DEBUG = 1, INFO = 2, WARN = 3, ERROR = 4. -/
inductive LogEntryLevel where
  | TRACE
  | DEBUG
  | INFO
  | WARN
  | ERROR
deriving DecidableEq, Repr

/-- `From<LogEntryLevel> for u8` (`ts/log.rs` lines 19-23): the `repr(u8)`
discriminant. -/
def LogEntryLevel.toU8 : LogEntryLevel → Nat
  | .TRACE => 0
  | .DEBUG => 1
  | .INFO => 2
  | .WARN => 3
  | .ERROR => 4

/-- `tracing::Level` of the external `tracing-core` crate, which
`impl Ord for LogEntryLevel` delegates to (`ts/log.rs` lines 57-66, 81-87).
Its inner discriminants are Trace = 0 through Error = 4. -/
inductive TracingLevel where
  | Trace
  | Debug
  | Info
  | Warn
  | Error
deriving DecidableEq, Repr

/-- Inner discriminant of `tracing::Level` (tracing-core `LevelInner`:
Trace = 0, Debug = 1, Info = 2, Warn = 3, Error = 4). -/
def TracingLevel.inner : TracingLevel → Nat
  | .Trace => 0
  | .Debug => 1
  | .Info => 2
  | .Warn => 3
  | .Error => 4

/-- `Ord for tracing::Level` as implemented and documented by tracing-core:
the comparison is reversed on the inner discriminant so that more-verbose
levels compare greater, with `Level::TRACE` the greatest and `Level::ERROR`
the least (tracing-core doc examples: `Level::TRACE > Level::DEBUG`,
`Level::ERROR < Level::WARN`). -/
def TracingLevel.cmp (a b : TracingLevel) : Ordering :=
  compare b.inner a.inner

/-- `From<&LogEntryLevel> for Level` (`ts/log.rs` lines 57-66). -/
def LogEntryLevel.toTracing : LogEntryLevel → TracingLevel
  | .TRACE => .Trace
  | .DEBUG => .Debug
  | .INFO => .Info
  | .WARN => .Warn
  | .ERROR => .Error

/-- `impl Ord for LogEntryLevel` (`ts/log.rs` lines 81-87): convert both
sides to `tracing::Level` and compare those. -/
def LogEntryLevel.cmp (a b : LogEntryLevel) : Ordering :=
  TracingLevel.cmp a.toTracing b.toTracing

/-- Strict `<` on `LogEntryLevel` as derived from `Ord::cmp` by Rust's
`PartialOrd` (via `Some(self.cmp(other))`, `ts/log.rs` lines 75-79). -/
def LogEntryLevel.ltLevel (a b : LogEntryLevel) : Prop :=
  LogEntryLevel.cmp a b = Ordering.lt

instance (a b : LogEntryLevel) : Decidable (LogEntryLevel.ltLevel a b) := by
  unfold LogEntryLevel.ltLevel; infer_instance

-- ===========================================================================
-- Runtime registry and port pool (src/src-tauri/src/lib.rs)
-- ===========================================================================

/-- One record of the registry map (`RuntimeProcess`, `lib.rs` lines 49-62).
`Cfg` is the opaque validated configuration blob (`ZenohConfigJson`); the
`Option Unit` fields stand for `Option<Child>`, `Option<JoinHandle<()>>` and
`Option<mpsc::Sender<RuntimeRequest>>`, whose payloads the registry never
inspects. -/
structure RuntimeProcess (Cfg : Type) where
  zenoh_id : Option String
  sandbox_config : Cfg
  child : Option Unit
  receiver_task : Option Unit
  request_tx : Option Unit
  allocated_port : Nat
deriving DecidableEq, Repr

/-- The shared registry state (`ZenohRuntimes`, `lib.rs` lines 65-75):
the map of runtime records, the next runtime id, and the port tracker
(`HashSet<u16>` as a duplicate-free list).  The port numbers are modelled
as `Nat`; `u16` overflow of the allocation scan is unreachable for the
small pools these claims are about. -/
structure ZenohRuntimes (Cfg : Type) where
  runtimes : List (Nat × RuntimeProcess Cfg)
  next_runtime_id : Nat
  port_tracker : List Nat
deriving DecidableEq, Repr

/-- `ZenohRuntimes::new` (`lib.rs` lines 85-91): empty map, next id 0,
empty port tracker. -/
def ZenohRuntimes.init (Cfg : Type) : ZenohRuntimes Cfg :=
  { runtimes := [], next_runtime_id := 0, port_tracker := [] }

/-- The scan of `allocate_port` (`lib.rs` lines 106-109): starting at `p`,
increment while the tracker contains the candidate.  The structural `fuel`
bounds the recursion; `tracker.length + 1` steps always suffice (proved in
`scanPort_spec`). -/
def scanPort (tracker : List Nat) : Nat → Nat → Nat
  | 0, p => p
  | fuel + 1, p => if p ∈ tracker then scanPort tracker fuel (p + 1) else p

/-- `ZenohRuntimes::allocate_port` (`lib.rs` lines 104-112): scan upward
from 10000 for the first port the tracker does not contain, insert it into
the tracker, and return it. -/
def ZenohRuntimes.allocate_port (s : ZenohRuntimes Cfg) :
    Nat × ZenohRuntimes Cfg :=
  let port := scanPort s.port_tracker (s.port_tracker.length + 1) 10000
  (port, { s with port_tracker := port :: s.port_tracker })

/-- `ZenohRuntimes::release_port` (`lib.rs` lines 115-118): remove the port
from the tracker (`HashSet::remove`). -/
def ZenohRuntimes.release_port (s : ZenohRuntimes Cfg) (port : Nat) :
    ZenohRuntimes Cfg :=
  { s with port_tracker := s.port_tracker.erase port }

/-- `declare_runtime` (`lib.rs` lines 187-212): allocate a runtime id and a
port, store a record with uninitialized (None) runtime fields, and return
the id. -/
def declare_runtime (s : ZenohRuntimes Cfg) (config : Cfg) :
    Nat × ZenohRuntimes Cfg :=
  let runtime_id := s.next_runtime_id
  let s := { s with next_runtime_id := s.next_runtime_id + 1 }
  let (port, s) := s.allocate_port
  let runtime_process : RuntimeProcess Cfg :=
    { zenoh_id := none, sandbox_config := config, child := none,
      receiver_task := none, request_tx := none, allocated_port := port }
  (runtime_id, { s with runtimes := (runtime_id, runtime_process) :: s.runtimes })

/-- `HashMap::get_mut` followed by a mutation: update the first entry with
the given key, `none` when the key is absent. -/
def updateFirst (f : RuntimeProcess Cfg → RuntimeProcess Cfg) :
    List (Nat × RuntimeProcess Cfg) → Nat →
    Option (List (Nat × RuntimeProcess Cfg))
  | [], _ => none
  | (k, v) :: t, id =>
      if k = id then some ((k, f v) :: t)
      else (updateFirst f t id).map ((k, v) :: ·)

/-- The registry mutation of a successful `start_runtime` (`lib.rs` lines
484-496): stash the parsed ZenohId and the child/receiver-task/request-
channel handles in the record.  Every other field — in particular
`sandbox_config` — is left untouched; the runtime-specific configuration
additions (`lib.rs` lines 238-264) are applied to a separate
`zenoh::config::Config` value converted out of a clone of the blob, never
written back.  Returns the `Runtime ... disappeared during startup` error
when the record is gone. -/
def start_runtime_commit (s : ZenohRuntimes Cfg) (runtime_id : Nat)
    (zid : String) : Except String (ZenohRuntimes Cfg) :=
  match updateFirst
      (fun rp => { rp with zenoh_id := some zid, child := some (),
                           receiver_task := some (), request_tx := some () })
      s.runtimes runtime_id with
  | some rts => .ok { s with runtimes := rts }
  | none =>
      .error ("Runtime " ++ toString runtime_id ++ " disappeared during startup")

/-- `zenoh_runtime_stop` (`lib.rs` lines 508-560), registry effects: look
the record up (error when absent), take the child / receiver-task /
request-channel fields (leaving `None`s), then — after the bounded waits
and the kill, which touch no registry state — release the record's
allocated port.  The record itself stays in the map. -/
def zenoh_runtime_stop (s : ZenohRuntimes Cfg) (runtime_id : Nat) :
    Except String Unit × ZenohRuntimes Cfg :=
  match List.lookup runtime_id s.runtimes with
  | none => (.error ("Runtime " ++ toString runtime_id ++ " not found"), s)
  | some rp =>
      match updateFirst
          (fun rp => { rp with child := none, receiver_task := none,
                               request_tx := none })
          s.runtimes runtime_id with
      | some rts =>
          (.ok (), ZenohRuntimes.release_port { s with runtimes := rts }
                     rp.allocated_port)
      | none => (.error ("Runtime " ++ toString runtime_id ++ " not found"), s)

/-- `zenoh_runtime_config` (`lib.rs` lines 573-584): return the stored
declared configuration blob unchanged. -/
def zenoh_runtime_config (s : ZenohRuntimes Cfg) (runtime_id : Nat) :
    Except String Cfg :=
  match List.lookup runtime_id s.runtimes with
  | none => .error ("Runtime " ++ toString runtime_id ++ " not found")
  | some rp => .ok rp.sandbox_config

/-- A call sequence against the registry, for the reachability claims:
`declare` with a configuration blob, or `stop` of a runtime id. -/
inductive RegistryOp (Cfg : Type) where
  | declare (config : Cfg)
  | stop (runtime_id : Nat)
deriving DecidableEq, Repr

/-- Run a sequence of declare/stop calls, discarding the returned values. -/
def runRegistry (s : ZenohRuntimes Cfg) : List (RegistryOp Cfg) →
    ZenohRuntimes Cfg
  | [] => s
  | .declare cfg :: rest => runRegistry (declare_runtime s cfg).2 rest
  | .stop id :: rest => runRegistry (zenoh_runtime_stop s id).2 rest

-- ===========================================================================
-- Worker protocol messages (src/src-tauri/src/protocol.rs)
-- ===========================================================================

/-- `MainToRuntime` (`protocol.rs` lines 12-19). -/
inductive MainToRuntime (Cfg : Type) where
  | Start (config : Cfg)
  | Stop
  | GetConfig
deriving DecidableEq, Repr

/-- `RuntimeToMain` (`protocol.rs` lines 23-34).  `Cfg` here stands for the
opaque `zenoh::config::Config` payload. -/
inductive RuntimeToMain (Cfg : Type) where
  | Started (zid : String)
  | StartError (err : String)
  | Log (entry : LogEntry)
  | Stopped
  | Config (config : Cfg)
deriving DecidableEq, Repr

-- ===========================================================================
-- start_runtime: handshake error handling (lib.rs lines 351-409)
-- ===========================================================================

/-- Outcome of `timeout(10s, listener.accept())` (`lib.rs` line 353). -/
inductive AcceptOutcome where
  | timeout
  | acceptErr (e : String)
  | connected
deriving DecidableEq, Repr

/-- Outcome of writing and flushing the `Start` message (`lib.rs` lines
373-380). -/
inductive SendOutcome where
  | success
  | writeErr (e : String)
  | flushErr (e : String)
deriving DecidableEq, Repr

/-- Outcome of `read_line` plus `serde_json::from_str::<RuntimeToMain>` on
the first reply (`lib.rs` lines 387-394).  A zero-byte read leaves the line
empty, so a closed connection surfaces as `undecodable`. -/
inductive FirstReply (Cfg : Type) where
  | readErr (e : String)
  | undecodable (e : String)
  | decoded (msg : RuntimeToMain Cfg)
deriving DecidableEq, Repr

/-- The I/O outcomes one execution of the handshake portion of
`start_runtime` encounters, after the worker process has been spawned. -/
structure StartExchange (Cfg : Type) where
  accept : AcceptOutcome
  send_start : SendOutcome
  first_reply : FirstReply Cfg
deriving DecidableEq, Repr

/-- The handshake portion of `start_runtime` (`lib.rs` lines 351-409),
returning the command result together with whether the spawned child
process was killed before returning.

Killing on the two accept-failure paths is written `drop(child.kill())`
(`lib.rs` lines 356, 360).  `tokio::process::Child::kill` is an `async fn`
(`start_kill` then `wait`, executed only when the future is polled), so
dropping the unpolled future sends no signal: those paths leave the child
alive, and the model records `killed = false` there.  The write / flush /
read / parse / invalid-id failure paths return without any kill call.
Only the `StartError` and unexpected-message arms run
`child.kill().await` (`lib.rs` lines 402, 406).

`parseZid` is `ZenohId::from_str` of the external zenoh crate. -/
def start_runtime_handshake (parseZid : String → Except String String)
    (ex : StartExchange Cfg) : Except String String × Bool :=
  match ex.accept with
  | .timeout =>
      (.error "Timeout waiting for runtime to connect (10s). Check stderr output.",
       false)
  | .acceptErr e => (.error ("Failed to accept connection: " ++ e), false)
  | .connected =>
    match ex.send_start with
    | .writeErr e => (.error ("Failed to send start message: " ++ e), false)
    | .flushErr e => (.error ("Failed to flush socket: " ++ e), false)
    | .success =>
      match ex.first_reply with
      | .readErr e => (.error ("Failed to read response: " ++ e), false)
      | .undecodable e => (.error ("Failed to parse response: " ++ e), false)
      | .decoded (.Started zid_str) =>
          match parseZid zid_str with
          | .error e => (.error ("Invalid ZenohId: " ++ e), false)
          | .ok zid => (.ok zid, false)
      | .decoded (.StartError err) => (.error err, true)
      | .decoded _ => (.error "Unexpected response from runtime", true)

-- ===========================================================================
-- The per-worker receiver task (lib.rs lines 422-480)
-- ===========================================================================

/-- Final state of a caller's oneshot reply slot, as the receiver task
leaves it: completed with a configuration, or dropped without a value
(the sender was overwritten, discarded, or never stored). -/
inductive SlotOutcome (Cfg : Type) where
  | fulfilled (c : Cfg)
  | dropped
deriving DecidableEq, Repr

/-- A request arriving on the task's `mpsc` channel (`RuntimeRequest`,
`lib.rs` lines 41-46).  Reply slots are named by caller-chosen ids.
`write_ok` of `GetConfig` is whether forwarding the `GetConfig` line to the
worker succeeds (`lib.rs` lines 459-461). -/
inductive RuntimeRequest where
  | GetConfig (slot : Nat) (write_ok : Bool)
  | Stop (slot : Nat)
deriving DecidableEq, Repr

/-- One ready arm of the task's `tokio::select!` (`lib.rs` lines 428-477):
either the next `read_line` outcome on the worker socket — closed
(`Ok(0)`), a line with its decode result, or an I/O error — or the next
queued request. -/
inductive LoopEvent (Cfg : Type) where
  | closed
  | line (decoded : Option (RuntimeToMain Cfg))
  | readIoErr
  | request (q : RuntimeRequest)
deriving DecidableEq, Repr

/-- State of the receiver task: the pending `GetConfig` reply slot
(`pending_config_request`, `lib.rs` line 425), the log entries forwarded to
the log store in order, the recorded fate of every reply slot the task has
finished with (newest first), and the `Stop` acknowledgements sent. -/
structure ReceiverState (Cfg : Type) where
  pending : Option Nat
  forwarded : List LogEntry
  resolved : List (Nat × SlotOutcome Cfg)
  stop_acked : List Nat
deriving DecidableEq, Repr

/-- The initial receiver state. -/
def ReceiverState.init (Cfg : Type) : ReceiverState Cfg :=
  { pending := none, forwarded := [], resolved := [], stop_acked := [] }

/-- One iteration of the receiver task's loop (`lib.rs` lines 427-479).
Returns the next state and whether the loop `break`s.

- `Ok(0)` (socket closed) and `Err(_)` break the loop.
- A line that fails to decode is silently discarded (`if let Ok(msg)`
  with no else arm) and the loop continues.
- `Log` entries are forwarded to the log store; `Config` completes the
  pending reply slot if one is present, otherwise the value is discarded;
  `Started` / `StartError` / `Stopped` fall into the `_ => {}` arm.
- `GetConfig` stores the new reply slot as pending when the write to the
  worker succeeds — overwriting (and thereby dropping) any previously
  pending slot — and drops the new slot itself when the write fails.
- `Stop` sends the acknowledgement and breaks. -/
def receiverStep (st : ReceiverState Cfg) (ev : LoopEvent Cfg) :
    ReceiverState Cfg × Bool :=
  match ev with
  | .closed => (st, true)
  | .readIoErr => (st, true)
  | .line none => (st, false)
  | .line (some (.Log entry)) =>
      ({ st with forwarded := st.forwarded ++ [entry] }, false)
  | .line (some (.Config c)) =>
      match st.pending with
      | some p =>
          ({ st with pending := none,
                     resolved := (p, .fulfilled c) :: st.resolved }, false)
      | none => (st, false)
  | .line (some _) => (st, false)
  | .request (.GetConfig slot write_ok) =>
      if write_ok then
        ({ st with pending := some slot,
                   resolved := match st.pending with
                     | some p => (p, .dropped) :: st.resolved
                     | none => st.resolved }, false)
      else
        ({ st with resolved := (slot, .dropped) :: st.resolved }, false)
  | .request (.Stop slot) =>
      ({ st with stop_acked := slot :: st.stop_acked }, true)

/-- Run the receiver loop over a schedule of ready events; returns the
final state and the events left unconsumed when the loop `break`s. -/
def runReceiver (st : ReceiverState Cfg) :
    List (LoopEvent Cfg) → ReceiverState Cfg × List (LoopEvent Cfg)
  | [] => (st, [])
  | ev :: rest =>
      match receiverStep st ev with
      | (st, true) => (st, rest)
      | (st, false) => runReceiver st rest

/-- The recorded fate of a reply slot: its newest entry in `resolved`, or
`none` while it is still pending / unknown. -/
def ReceiverState.fate (st : ReceiverState Cfg) (slot : Nat) :
    Option (SlotOutcome Cfg) :=
  List.lookup slot st.resolved

-- ===========================================================================
-- zenoh_runtime_config_json (lib.rs lines 589-617)
-- ===========================================================================

/-- Outcome of `timeout(5s, response_rx)` (`lib.rs` line 611): the oneshot
delivered a configuration, the sender side was dropped before completion
(`RecvError`), or the five-second wait elapsed first. -/
inductive AwaitOutcome (Cfg : Type) where
  | received (c : Cfg)
  | senderDropped
  | elapsed
deriving DecidableEq, Repr

/-- The two `map_err` layers around the bounded wait (`lib.rs` lines
611-614). -/
def awaitConfigReply : AwaitOutcome Cfg → Except String Cfg
  | .received c => .ok c
  | .elapsed => .error "Timeout waiting for config response"
  | .senderDropped => .error "Config request was cancelled"

/-- The bounded wait's outcome determined by what the receiver task did to
the caller's reply slot within the five-second window: a recorded
fulfilment delivers the value, a recorded drop surfaces as `RecvError`,
and a slot still pending when the window closes is the elapsed case. -/
def awaitOfFate : Option (SlotOutcome Cfg) → AwaitOutcome Cfg
  | some (.fulfilled c) => .received c
  | some .dropped => .senderDropped
  | none => .elapsed

/-- The channel-side outcomes of one `zenoh_runtime_config_json` call:
whether `request_tx.send(..).await` succeeded (it fails exactly when the
receiver task is gone), and the result of the bounded wait reached only
after a successful send. -/
structure ConfigCall (Cfg : Type) where
  send_ok : Bool
  await : AwaitOutcome Cfg
deriving DecidableEq, Repr

/-- `zenoh_runtime_config_json` (`lib.rs` lines 589-617): look up the
record and its request channel, send a `GetConfig` request carrying a
fresh oneshot reply slot, and wait (bounded by five seconds) for the
reply. -/
def zenoh_runtime_config_json (s : ZenohRuntimes Cfg) (runtime_id : Nat)
    (call : ConfigCall Cfg) : Except String Cfg :=
  match List.lookup runtime_id s.runtimes with
  | none => .error ("Runtime " ++ toString runtime_id ++ " not found")
  | some rp =>
      match rp.request_tx with
      | none => .error "Runtime not started yet"
      | some _ =>
          if call.send_ok then awaitConfigReply call.await
          else .error "Failed to send config request"

-- ===========================================================================
-- Concrete sample inputs used by counterexamples and witnesses
-- ===========================================================================

/-- A concrete log entry. -/
def sampleEntry : LogEntry :=
  { timestamp := "2025-01-01T00:00:00Z", level := "INFO",
    target := "zenoh", message := "hello" }

/-- A registry state holding one successfully started runtime (id 0, port
10000, request channel present), as left by `declare_runtime` followed by a
successful `start_runtime`. -/
def sampleStarted : ZenohRuntimes Nat :=
  { runtimes := [(0,
      { zenoh_id := some "zid0", sandbox_config := 7, child := some (),
        receiver_task := some (), request_tx := some (),
        allocated_port := 10000 })],
    next_runtime_id := 1,
    port_tracker := [10000] }

/-- The call sequence declare, stop 0, declare, stop 0 (again), declare:
runtime 0 is stopped twice, runtimes 1 and 2 are never stopped. -/
def doubleStopSeq : List (RegistryOp Nat) :=
  [.declare 100, .stop 0, .declare 101, .stop 0, .declare 102]

/-- A page index whose `usize` product with `LOG_PAGE_SIZE` overflows:
`184467440737095517 * 100 = 2 ^ 64 + 84`, so the start offset wraps
to 84 (and the end offset to 184). -/
def wrapPage : Nat := 184467440737095517

/-- A log store holding 200 entries for runtime 0 — more than the wrapped
start offset 84, so the overflow guard does not catch `wrapPage`. -/
def wrapStore : LogMap := [(0, List.replicate 200 sampleEntry)]

-- ===========================================================================
-- Helper lemmas
-- ===========================================================================

/-- Dropping every element equal to `p` shortens the `p ≤ ·` filter
strictly, provided `p` occurs. -/
theorem length_filter_succ_lt {l : List Nat} {p : Nat} (hp : p ∈ l) :
    (l.filter fun q => p + 1 ≤ q).length < (l.filter fun q => p ≤ q).length := by
  induction l with
  | nil => cases hp
  | cons a t ih =>
      rcases List.mem_cons.mp hp with rfl | hmem
      · have hsub : (t.filter fun q => p + 1 ≤ q).length
            ≤ (t.filter fun q => p ≤ q).length :=
          (List.monotone_filter_right t (by intro x hx; simp_all; omega)).length_le
        simp only [List.filter_cons]
        have h1 : ¬ (p + 1 ≤ p) := by omega
        simp [h1]
        omega
      · have := ih hmem
        simp only [List.filter_cons]
        by_cases h1 : p + 1 ≤ a <;> by_cases h2 : p ≤ a <;>
          simp [h1, h2] <;> omega

/-- The port scan returns a port the tracker does not contain, whenever the
fuel exceeds the number of tracked ports at or above the starting
candidate. -/
theorem scanPort_not_mem : ∀ (fuel : Nat) (l : List Nat) (p : Nat),
    (l.filter fun q => p ≤ q).length < fuel → scanPort l fuel p ∉ l
  | 0, _, _, h => absurd h (by omega)
  | fuel + 1, l, p, h => by
      by_cases hp : p ∈ l
      · simp only [scanPort, hp, if_true]
        exact scanPort_not_mem fuel l (p + 1)
          (by have := length_filter_succ_lt (l := l) (p := p) hp; omega)
      · simp [scanPort, hp]

/-- The port `allocate_port` hands out is absent from the tracker it
scanned. -/
theorem allocate_port_not_mem (tracker : List Nat) :
    scanPort tracker (tracker.length + 1) 10000 ∉ tracker :=
  scanPort_not_mem _ _ _
    (by have := List.length_filter_le (fun q => 10000 ≤ q) tracker; omega)

/-- `updateFirst` succeeds exactly on present keys, rewrites the first
matching value, and leaves lookup of that key at the rewritten value. -/
theorem updateFirst_of_lookup {Cfg : Type} (f : RuntimeProcess Cfg → RuntimeProcess Cfg) :
    ∀ {l : List (Nat × RuntimeProcess Cfg)} {id : Nat} {v : RuntimeProcess Cfg},
    List.lookup id l = some v →
    ∃ l', updateFirst f l id = some l' ∧ List.lookup id l' = some (f v)
  | [], id, v, h => by simp [List.lookup] at h
  | (k, w) :: t, id, v, h => by
      by_cases hk : k = id
      · subst hk
        have hv : w = v := by simpa [List.lookup] using h
        subst hv
        exact ⟨(k, f w) :: t, by simp [updateFirst], by simp [List.lookup]⟩
      · have hne : (id == k) = false := by simp [Ne.symm hk]
        simp only [List.lookup, hne] at h
        obtain ⟨t', ht', hl'⟩ := updateFirst_of_lookup f (l := t) h
        exact ⟨(k, w) :: t', by simp [updateFirst, hk, ht'], by simp [List.lookup, hne, hl']⟩

/-- Re-running an idempotent `updateFirst` rewrite leaves the list fixed. -/
theorem updateFirst_idem {Cfg : Type} (f : RuntimeProcess Cfg → RuntimeProcess Cfg)
    (hf : ∀ v, f (f v) = f v) :
    ∀ (l : List (Nat × RuntimeProcess Cfg)) (id : Nat)
      (l' : List (Nat × RuntimeProcess Cfg)),
    updateFirst f l id = some l' → updateFirst f l' id = some l'
  | [], id, l', h => by simp [updateFirst] at h
  | (k, w) :: t, id, l', h => by
      by_cases hk : k = id
      · subst hk
        simp only [updateFirst, if_true] at h
        obtain rfl := Option.some_inj.mp h
        simp [updateFirst, hf]
      · simp only [updateFirst, hk, if_false, Option.map_eq_some'] at h
        obtain ⟨t', ht', rfl⟩ := h
        simp [updateFirst, hk, updateFirst_idem f hf t id t' ht']

/-- Lookup of a key other than the stored one passes through the filter
`LogMap.store` applies. -/
theorem lookup_filter_ne (m : LogMap) {z zid : Nat} (h : z ≠ zid) :
    List.lookup z (m.filter fun kv => kv.1 ≠ zid) = List.lookup z m := by
  induction m with
  | nil => rfl
  | cons kv t ih =>
      obtain ⟨k, v⟩ := kv
      simp only [ne_eq, decide_not] at ih ⊢
      by_cases hk : k = zid
      · subst hk
        have hzk : (z == k) = false := by simp [h]
        simp [List.filter_cons, List.lookup, hzk, ih]
      · by_cases hz : z = k
        · subst hz
          simp [List.filter_cons, hk, List.lookup]
        · have hzk : (z == k) = false := by simp [hz]
          simp [List.filter_cons, hk, List.lookup, hzk, ih]

/-- `LogMap.store` makes the stored list the one lookup finds. -/
theorem getD_store (m : LogMap) (zid : Nat) (l : List LogEntry) :
    (LogMap.store m zid l).getD zid = l := by
  simp [LogMap.store, LogMap.getD, LogMap.find, List.lookup]

/-- `LogMap.store` leaves every other key's list unchanged. -/
theorem getD_store_ne (m : LogMap) {zid z : Nat} (l : List LogEntry)
    (h : z ≠ zid) : (LogMap.store m zid l).getD z = m.getD z := by
  have hz : (z == zid) = false := by simp [h]
  have hlf := lookup_filter_ne m h
  simp only [ne_eq, decide_not] at hlf
  simp [LogMap.store, LogMap.getD, LogMap.find, List.lookup, hz, hlf]

/-- After `add_log`, the touched runtime's list is the new entry consed in
front, truncated to the capacity. -/
theorem getD_add_log (max : Nat) (m : LogMap) (zid : Nat) (e : LogEntry) :
    (LogStorage.add_log max m zid e).getD zid
      = (e :: m.getD zid).take max := by
  simp only [LogStorage.add_log]
  rw [getD_store]
  by_cases h : (e :: m.getD zid).length > max
  · simp [h]
  · have hle : (e :: m.getD zid).length ≤ max := by omega
    simp [h, List.take_of_length_le hle]

/-- `add_log` leaves every other runtime's list unchanged. -/
theorem getD_add_log_ne (max : Nat) (m : LogMap) {zid z : Nat} (e : LogEntry)
    (h : z ≠ zid) :
    (LogStorage.add_log max m zid e).getD z = m.getD z := by
  simp only [LogStorage.add_log]
  rw [getD_store_ne _ _ h]

/-- Every store reachable from a capped store by `add_log` calls stays
capped at `MAX_LOG_ENTRIES` for every runtime. -/
theorem run_foldl_cap : ∀ (ops : List (Nat × LogEntry)) (m : LogMap),
    (∀ z, (m.getD z).length ≤ MAX_LOG_ENTRIES) →
    ∀ z, ((ops.foldl
        (fun m op => LogStorage.add_log MAX_LOG_ENTRIES m op.1 op.2) m).getD
          z).length ≤ MAX_LOG_ENTRIES
  | [], m, hm, z => hm z
  | (zid, e) :: rest, m, hm, z => by
      refine run_foldl_cap rest _ (fun z' => ?_) z
      by_cases hz : z' = zid
      · subst hz
        rw [getD_add_log]
        exact List.length_take_le _ _
      · rw [getD_add_log_ne _ _ _ hz]
        exact hm z'

-- ===========================================================================
-- Claim theorems
-- ===========================================================================

/-- C1 (code_bug evidence): three failing executions of `start_runtime`
after the worker was spawned — an undecodable handshake reply, a
connection-accept timeout, and a read error on the reply — each make
`start_runtime` return an error while the spawned child process is not
killed (`killed = false`), contradicting the claim that every failed start
kills the child.  The accept paths drop the unawaited `child.kill()`
future; the read / parse paths never call `kill` at all. -/
theorem start_failure_leaves_child_alive :
    start_runtime_handshake (fun s => .ok s)
      ({ accept := .connected, send_start := .success,
         first_reply := .undecodable "expected value at line 1 column 1" }
        : StartExchange Nat)
      = (.error "Failed to parse response: expected value at line 1 column 1",
         false)
  ∧ start_runtime_handshake (fun s => .ok s)
      ({ accept := .timeout, send_start := .success,
         first_reply := .undecodable "" } : StartExchange Nat)
      = (.error "Timeout waiting for runtime to connect (10s). Check stderr output.",
         false)
  ∧ start_runtime_handshake (fun s => .ok s)
      ({ accept := .connected, send_start := .success,
         first_reply := .readErr "connection reset" } : StartExchange Nat)
      = (.error "Failed to read response: connection reset", false) :=
  ⟨rfl, rfl, rfl⟩

/-- C2 (code_bug evidence): running declare, stop 0, declare, stop 0,
declare from the initial registry leaves runtimes 1 and 2 — neither of
which was ever stopped — both holding allocated port 10000, while the
tracker records the port only once: the second stop of runtime 0 released
the port runtime 1 was holding, and the final declare handed it out again.
This contradicts the claim that simultaneously-reserved ports are distinct
and that a port is released exactly once. -/
theorem repeated_stop_duplicates_reserved_port :
    (List.lookup 1 (runRegistry (ZenohRuntimes.init Nat) doubleStopSeq).runtimes).map
        RuntimeProcess.allocated_port = some 10000
  ∧ (List.lookup 2 (runRegistry (ZenohRuntimes.init Nat) doubleStopSeq).runtimes).map
        RuntimeProcess.allocated_port = some 10000
  ∧ (runRegistry (ZenohRuntimes.init Nat) doubleStopSeq).port_tracker = [10000] := by
  decide

/-- C4 (counterexample): under the code's `Ord for LogEntryLevel` — which
compares through `tracing::Level` — TRACE does not compare strictly less
than DEBUG; it compares strictly greater, even though the enum's own `u8`
discriminants are ascending.  This falsifies the claimed order
TRACE < DEBUG < INFO < WARN < ERROR at its first pair. -/
theorem severity_trace_not_below_debug :
    ¬ LogEntryLevel.ltLevel .TRACE .DEBUG
  ∧ LogEntryLevel.cmp .TRACE .DEBUG = Ordering.gt
  ∧ LogEntryLevel.toU8 .TRACE < LogEntryLevel.toU8 .DEBUG := by
  decide

/-- C4 (amended): the log severity comparison on `LogEntryLevel` satisfies
the reversed chain ERROR < WARN < INFO < DEBUG < TRACE — the `tracing`
convention in which more-verbose levels compare greater — for every pair of
distinct levels. -/
theorem severity_order_matches_tracing :
    LogEntryLevel.ltLevel .ERROR .WARN
  ∧ LogEntryLevel.ltLevel .WARN .INFO
  ∧ LogEntryLevel.ltLevel .INFO .DEBUG
  ∧ LogEntryLevel.ltLevel .DEBUG .TRACE
  ∧ LogEntryLevel.ltLevel .ERROR .INFO
  ∧ LogEntryLevel.ltLevel .ERROR .DEBUG
  ∧ LogEntryLevel.ltLevel .ERROR .TRACE
  ∧ LogEntryLevel.ltLevel .WARN .DEBUG
  ∧ LogEntryLevel.ltLevel .WARN .TRACE
  ∧ LogEntryLevel.ltLevel .INFO .TRACE := by
  decide

/-- C5 (counterexample): a line that fails to decode does not terminate the
receiver loop.  The step on an undecodable line reports `continue`
(`break = false`), and a run that sees an undecodable line followed by a
`Log` message consumes both events and forwards the log — which would be
impossible had the loop terminated at the decode failure. -/
theorem decode_failure_continues_loop :
    receiverStep (ReceiverState.init Nat) (.line none)
      = (ReceiverState.init Nat, false)
  ∧ (runReceiver (ReceiverState.init Nat)
        [.line none, .line (some (.Log sampleEntry))]).1.forwarded
      = [sampleEntry]
  ∧ (runReceiver (ReceiverState.init Nat)
        [.line none, .line (some (.Log sampleEntry))]).2 = [] := by
  decide

/-- C5 (amended): the receiver loop terminates when it observes the
connection closed (a zero-byte read) and when the read itself fails with an
I/O error; a line that fails to decode is discarded and the loop continues
with the remaining events. -/
theorem receiver_loop_termination {Cfg : Type} (st : ReceiverState Cfg)
    (rest : List (LoopEvent Cfg)) :
    receiverStep st .closed = (st, true)
  ∧ receiverStep st .readIoErr = (st, true)
  ∧ runReceiver st (.closed :: rest) = (st, rest)
  ∧ runReceiver st (.readIoErr :: rest) = (st, rest)
  ∧ runReceiver st (.line none :: rest) = runReceiver st rest :=
  ⟨rfl, rfl, rfl, rfl, rfl⟩

/-- C6: outside the handshake, a decode failure on a single protocol line
is non-fatal — the receiver loop discards the line and continues exactly as
if it had never arrived — while during the handshake an undecodable first
reply makes `start_runtime` fail with the parse error. -/
theorem decode_nonfatal_outside_handshake {Cfg : Type}
    (parseZid : String → Except String String) :
    (∀ (st : ReceiverState Cfg) (rest : List (LoopEvent Cfg)),
        runReceiver st (.line none :: rest) = runReceiver st rest)
  ∧ (∀ e : String,
        start_runtime_handshake parseZid
          ({ accept := .connected, send_start := .success,
             first_reply := .undecodable e } : StartExchange Cfg)
          = (.error ("Failed to parse response: " ++ e), false)) :=
  ⟨fun _ _ => rfl, fun _ => rfl⟩

/-- C9: every log store reachable by `add_log` calls from the empty store
keeps at most `MAX_LOG_ENTRIES` (10,000) entries for every runtime, and a
single `add_log` makes the touched runtime's list the new entry consed at
the front with everything beyond the capacity dropped from the back. -/
theorem add_log_cap_and_front_insert :
    (∀ (ops : List (Nat × LogEntry)) (zid : Nat),
        ((LogStorage.run ops).getD zid).length ≤ MAX_LOG_ENTRIES)
  ∧ (∀ (max : Nat) (m : LogMap) (zid : Nat) (e : LogEntry),
        (LogStorage.add_log max m zid e).getD zid
          = (e :: m.getD zid).take max) := by
  constructor
  · intro ops zid
    exact run_foldl_cap ops []
      (fun z => by simp [LogMap.getD, LogMap.find, List.lookup]) zid
  · exact getD_add_log

/-- Unfolding of `get_page` on a known runtime id: the guarded slice with
the wrapped `usize` offsets. -/
theorem get_page_eq_some {m : LogMap} {zid : Nat} {l : List LogEntry}
    (hf : m.find zid = some l) (page : Nat) :
    LogStorage.get_page m zid page
      = (if (page * LOG_PAGE_SIZE) % USIZE_LIMIT ≥ l.length then []
         else (l.drop ((page * LOG_PAGE_SIZE) % USIZE_LIMIT)).take
           (min (((page + 1) * LOG_PAGE_SIZE) % USIZE_LIMIT) l.length
             - (page * LOG_PAGE_SIZE) % USIZE_LIMIT)) := by
  unfold LogStorage.get_page
  rw [hf]

set_option maxRecDepth 20000 in
/-- C10 (counterexample): the claimed characterization fails at a page
index whose `usize` products overflow.  `wrapPage * 100` wraps to start
offset 84, so on a 200-entry store the call returns the 100 entries at
positions 84..184 instead of the empty list the claim requires (the true
product `wrapPage * 100` is far past the end of the list). -/
theorem get_page_wrapped_page_not_empty :
    wrapPage * LOG_PAGE_SIZE ≥ (LogMap.getD wrapStore 0).length
  ∧ LogStorage.get_page wrapStore 0 wrapPage ≠ []
  ∧ (LogStorage.get_page wrapStore 0 wrapPage).length = 100
  ∧ LogStorage.get_page wrapStore 0 wrapPage
      = ((LogMap.getD wrapStore 0).drop 84).take 100 := by
  refine ⟨by decide, by decide, by decide, by decide⟩

/-- C10 (amended): `get_page` returns at most `LOG_PAGE_SIZE` (100)
entries and never slices out of bounds, for every store, runtime id and
page index; an unknown runtime id yields the empty list; and for every
page index whose `usize` products do not overflow
(`(page + 1) * 100 < 2 ^ 64`), the result is exactly the stored entries
in positions `page * 100` up to `min ((page + 1) * 100, length)`, with
the empty list when `page * 100` is at or past the end of the stored
list.  (At overflowing page indices the wrapped offsets are used
instead — see the counterexample.) -/
theorem get_page_total_and_bounded (m : LogMap) (zid page : Nat) :
    (LogStorage.get_page m zid page).length ≤ LOG_PAGE_SIZE
  ∧ (m.find zid = none → LogStorage.get_page m zid page = [])
  ∧ ((page + 1) * LOG_PAGE_SIZE < USIZE_LIMIT →
        LogStorage.get_page m zid page
          = ((m.getD zid).drop (page * LOG_PAGE_SIZE)).take LOG_PAGE_SIZE
      ∧ (page * LOG_PAGE_SIZE ≥ (m.getD zid).length →
            LogStorage.get_page m zid page = [])) := by
  refine ⟨?_, ?_, ?_⟩
  · cases hf : m.find zid with
    | none => simp [LogStorage.get_page, hf]
    | some l =>
        rw [get_page_eq_some hf]
        split
        · simp [LOG_PAGE_SIZE]
        · simp only [List.length_take, List.length_drop, LOG_PAGE_SIZE,
            USIZE_LIMIT]
          omega
  · intro h
    simp [LogStorage.get_page, h]
  · intro hnof
    have e1 : (page * LOG_PAGE_SIZE) % USIZE_LIMIT = page * LOG_PAGE_SIZE :=
      Nat.mod_eq_of_lt
        (lt_of_le_of_lt (Nat.mul_le_mul_right _ (Nat.le_succ page)) hnof)
    have e2 : ((page + 1) * LOG_PAGE_SIZE) % USIZE_LIMIT
        = (page + 1) * LOG_PAGE_SIZE := Nat.mod_eq_of_lt hnof
    have main : LogStorage.get_page m zid page
        = ((m.getD zid).drop (page * LOG_PAGE_SIZE)).take LOG_PAGE_SIZE := by
      cases hf : m.find zid with
      | none => simp [LogStorage.get_page, hf, LogMap.getD]
      | some l =>
          have hg : LogMap.getD m zid = l := by simp [LogMap.getD, hf]
          rw [get_page_eq_some hf, e1, e2, hg]
          by_cases hs : page * LOG_PAGE_SIZE ≥ l.length
          · rw [if_pos hs, List.drop_eq_nil_of_le hs, List.take_nil]
          · rw [if_neg hs, List.take_eq_take]
            simp only [List.length_drop, LOG_PAGE_SIZE]
            omega
    refine ⟨main, fun hge => ?_⟩
    rw [main, List.drop_eq_nil_of_le hge, List.take_nil]

set_option maxRecDepth 20000 in
/-- C10 witness: the page bound on an empty store, the empty result on an
unknown runtime id, the exact slice at page 0 of the 200-entry store, and
the empty result at the non-overflowing page 2 whose start offset 200 is
at the end of that store. -/
theorem get_page_total_and_bounded_witness :
    (LogStorage.get_page [] 5 0).length ≤ LOG_PAGE_SIZE
  ∧ LogStorage.get_page [] 5 0 = []
  ∧ LogStorage.get_page wrapStore 0 0
      = ((LogMap.getD wrapStore 0).drop (0 * LOG_PAGE_SIZE)).take LOG_PAGE_SIZE
  ∧ LogStorage.get_page wrapStore 0 2 = [] :=
  ⟨(get_page_total_and_bounded [] 5 0).1,
   (get_page_total_and_bounded [] 5 0).2.1 rfl,
   ((get_page_total_and_bounded wrapStore 0 0).2.2 (by decide)).1,
   ((get_page_total_and_bounded wrapStore 0 2).2.2 (by decide)).2 (by decide)⟩

/-- C7: for every registry state and configuration blob, declaring the
blob and then committing a successful start leaves the declared
configuration readable unchanged: `zenoh_runtime_config` returns a blob
equal to the declared one (hence equal in every field, in particular mode
and websocket port).  The start commit writes only the ZenohId, child,
receiver-task and request-channel fields; the runtime-specific additions
are applied to a separate converted copy sent to the worker, never stored
back. -/
theorem declared_config_roundtrip {Cfg : Type} (s : ZenohRuntimes Cfg)
    (cfg : Cfg) (zid : String) :
    ∃ s2, start_runtime_commit (declare_runtime s cfg).2
            (declare_runtime s cfg).1 zid = .ok s2
      ∧ zenoh_runtime_config s2 (declare_runtime s cfg).1 = .ok cfg
      ∧ (List.lookup (declare_runtime s cfg).1 s2.runtimes).map
          RuntimeProcess.sandbox_config = some cfg := by
  have hd : declare_runtime s cfg
      = (s.next_runtime_id,
         { runtimes := (s.next_runtime_id,
             { zenoh_id := none, sandbox_config := cfg, child := none,
               receiver_task := none, request_tx := none,
               allocated_port :=
                 scanPort s.port_tracker (s.port_tracker.length + 1) 10000 })
             :: s.runtimes,
           next_runtime_id := s.next_runtime_id + 1,
           port_tracker :=
             scanPort s.port_tracker (s.port_tracker.length + 1) 10000
               :: s.port_tracker }) := rfl
  rw [hd]
  refine ⟨ZenohRuntimes.mk
    ((s.next_runtime_id,
      RuntimeProcess.mk (some zid) cfg (some ()) (some ()) (some ())
        (scanPort s.port_tracker (s.port_tracker.length + 1) 10000))
      :: s.runtimes)
    (s.next_runtime_id + 1)
    (scanPort s.port_tracker (s.port_tracker.length + 1) 10000
      :: s.port_tracker), ?_, ?_, ?_⟩
  · simp [start_runtime_commit, updateFirst]
  · simp [zenoh_runtime_config, List.lookup]
  · simp [List.lookup]

/-- C8: stopping a runtime that was declared but never started returns
`Ok(())` and leaves the state unchanged except that the allocated port is
back out of the tracker (conjuncts 1-2); stopping it a second time
immediately afterwards again returns `Ok(())` and changes nothing
(conjuncts 3-4); and on any registry state with a duplicate-free tracker,
a second consecutive `stop` of any present runtime id returns `Ok(())`
and is a no-op on the state (conjunct 5).  No panic is possible: the
embedding is a total function. -/
theorem stop_release_and_idempotent {Cfg : Type} (s : ZenohRuntimes Cfg)
    (cfg : Cfg) :
    (zenoh_runtime_stop (declare_runtime s cfg).2 (declare_runtime s cfg).1).1
        = .ok ()
  ∧ (zenoh_runtime_stop (declare_runtime s cfg).2 (declare_runtime s cfg).1).2
      = { (declare_runtime s cfg).2 with port_tracker := s.port_tracker }
  ∧ (zenoh_runtime_stop
        (zenoh_runtime_stop (declare_runtime s cfg).2
          (declare_runtime s cfg).1).2
        (declare_runtime s cfg).1).1 = .ok ()
  ∧ (zenoh_runtime_stop
        (zenoh_runtime_stop (declare_runtime s cfg).2
          (declare_runtime s cfg).1).2
        (declare_runtime s cfg).1).2
      = (zenoh_runtime_stop (declare_runtime s cfg).2
          (declare_runtime s cfg).1).2
  ∧ (∀ (id : Nat) (rp : RuntimeProcess Cfg),
        List.lookup id s.runtimes = some rp → s.port_tracker.Nodup →
        (zenoh_runtime_stop (zenoh_runtime_stop s id).2 id).1 = .ok ()
        ∧ (zenoh_runtime_stop (zenoh_runtime_stop s id).2 id).2
            = (zenoh_runtime_stop s id).2) := by
  have hd : declare_runtime s cfg
      = (s.next_runtime_id,
         { runtimes := (s.next_runtime_id,
             { zenoh_id := none, sandbox_config := cfg, child := none,
               receiver_task := none, request_tx := none,
               allocated_port :=
                 scanPort s.port_tracker (s.port_tracker.length + 1) 10000 })
             :: s.runtimes,
           next_runtime_id := s.next_runtime_id + 1,
           port_tracker :=
             scanPort s.port_tracker (s.port_tracker.length + 1) 10000
               :: s.port_tracker }) := rfl
  have hfree := allocate_port_not_mem s.port_tracker
  refine ⟨?_, ?_, ?_, ?_, ?_⟩
  · rw [hd]
    simp [zenoh_runtime_stop, List.lookup, updateFirst]
  · rw [hd]
    simp [zenoh_runtime_stop, List.lookup, updateFirst,
      ZenohRuntimes.release_port, List.erase_cons_head]
  · rw [hd]
    simp [zenoh_runtime_stop, List.lookup, updateFirst,
      ZenohRuntimes.release_port, List.erase_cons_head,
      List.erase_of_not_mem hfree]
  · rw [hd]
    simp [zenoh_runtime_stop, List.lookup, updateFirst,
      ZenohRuntimes.release_port, List.erase_cons_head,
      List.erase_of_not_mem hfree]
  · intro id rp hlook hnodup
    obtain ⟨l', hup, hlook'⟩ := updateFirst_of_lookup
      (fun rp => { rp with child := none, receiver_task := none,
                           request_tx := none }) hlook
    have hup2 : updateFirst
        (fun rp => { rp with child := none, receiver_task := none,
                             request_tx := none }) l' id = some l' :=
      updateFirst_idem
        (fun rp => { rp with child := none, receiver_task := none,
                             request_tx := none })
        (fun v => rfl) s.runtimes id l' hup
    have hnotmem : rp.allocated_port ∉ s.port_tracker.erase rp.allocated_port :=
      fun hmem => ((hnodup.mem_erase_iff).mp hmem).1 rfl
    constructor
    · simp [zenoh_runtime_stop, hlook, hup, hlook', hup2,
        ZenohRuntimes.release_port]
    · simp [zenoh_runtime_stop, hlook, hup, hlook', hup2,
        ZenohRuntimes.release_port, List.erase_of_not_mem hnotmem]

/-- C8 witness: two consecutive stops of the started runtime 0 in
`sampleStarted` both succeed and the second changes nothing. -/
theorem stop_release_and_idempotent_witness :
    (zenoh_runtime_stop (zenoh_runtime_stop sampleStarted 0).2 0).1 = .ok ()
  ∧ (zenoh_runtime_stop (zenoh_runtime_stop sampleStarted 0).2 0).2
      = (zenoh_runtime_stop sampleStarted 0).2 :=
  (stop_release_and_idempotent sampleStarted 7).2.2.2.2 0 _ rfl (by decide)

/-- C3 (counterexample): on a started runtime whose receiver task has
already exited, `zenoh_runtime_config_json` returns the immediate error
`Failed to send config request` — an outcome distinct from all three the
claim enumerates (a config value, the timeout error, the cancelled
error). -/
theorem live_config_send_error_outside_listed_outcomes :
    zenoh_runtime_config_json sampleStarted 0
        { send_ok := false, await := .elapsed }
      = .error "Failed to send config request"
  ∧ "Failed to send config request" ≠ "Timeout waiting for config response"
  ∧ "Failed to send config request" ≠ "Config request was cancelled"
  ∧ (zenoh_runtime_config_json sampleStarted 0
        { send_ok := false, await := .elapsed }).toOption = none :=
  ⟨rfl, by decide, by decide, rfl⟩

/-- C3 (amended): every `zenoh_runtime_config_json` call on a started
runtime terminates with one of four results — a config value, the
five-second timeout error, the cancelled error (reply slot dropped), or
the immediate send-failure error when the event loop's request channel is
already closed — so a caller never blocks indefinitely; and a second
`GetConfig` arriving while one is pending overwrites (drops) the pending
reply slot, whose caller then observes exactly the cancelled error. -/
theorem live_config_bounded_outcomes {Cfg : Type} (s : ZenohRuntimes Cfg)
    (id : Nat) (call : ConfigCall Cfg) (rp : RuntimeProcess Cfg)
    (hrec : List.lookup id s.runtimes = some rp)
    (htx : rp.request_tx = some ()) :
    ((∃ c, zenoh_runtime_config_json s id call = .ok c)
      ∨ zenoh_runtime_config_json s id call
          = .error "Timeout waiting for config response"
      ∨ zenoh_runtime_config_json s id call
          = .error "Config request was cancelled"
      ∨ zenoh_runtime_config_json s id call
          = .error "Failed to send config request")
  ∧ (∀ (st : ReceiverState Cfg) (a b : Nat), st.pending = some a →
        ((receiverStep st (.request (.GetConfig b true))).1.fate a
            = some SlotOutcome.dropped
         ∧ awaitConfigReply (awaitOfFate
            ((receiverStep st (.request (.GetConfig b true))).1.fate a))
            = .error "Config request was cancelled")) := by
  constructor
  · unfold zenoh_runtime_config_json
    simp only [hrec, htx]
    rcases call with ⟨sok, aw⟩
    cases sok
    · simp
    · cases aw with
      | received c => exact Or.inl ⟨c, rfl⟩
      | senderDropped => simp [awaitConfigReply]
      | elapsed => simp [awaitConfigReply]
  · intro st a b hp
    constructor
    · simp [receiverStep, hp, ReceiverState.fate, List.lookup]
    · simp [receiverStep, hp, ReceiverState.fate, List.lookup,
        awaitOfFate, awaitConfigReply]

/-- C3 witness: on `sampleStarted`, a call whose reply arrives delivers the
config value (first disjunct), and a pending slot 3 overwritten by a new
`GetConfig` for slot 4 resolves to the cancelled error. -/
theorem live_config_bounded_outcomes_witness :
    ((∃ c, zenoh_runtime_config_json sampleStarted 0
          { send_ok := true, await := .received 42 } = .ok c)
      ∨ zenoh_runtime_config_json sampleStarted 0
          { send_ok := true, await := .received 42 }
          = .error "Timeout waiting for config response"
      ∨ zenoh_runtime_config_json sampleStarted 0
          { send_ok := true, await := .received 42 }
          = .error "Config request was cancelled"
      ∨ zenoh_runtime_config_json sampleStarted 0
          { send_ok := true, await := .received 42 }
          = .error "Failed to send config request")
  ∧ awaitConfigReply (awaitOfFate
      ((receiverStep (ReceiverState.mk (some 3) ([] : List LogEntry)
            ([] : List (Nat × SlotOutcome Nat)) ([] : List Nat))
          (.request (.GetConfig 4 true))).1.fate 3))
      = .error "Config request was cancelled" :=
  ⟨(live_config_bounded_outcomes sampleStarted 0
      { send_ok := true, await := .received 42 } _ rfl rfl).1,
   ((live_config_bounded_outcomes sampleStarted 0
      { send_ok := true, await := .received 42 } _ rfl rfl).2
      (ReceiverState.mk (some 3) [] [] []) 3 4 rfl).2⟩
